import Mathlib

/-!
Shallow embedding of `gymnarium_visualisers_base` (src/src/lib.rs): the 2D affine
transform algebra, the transform pipeline, the recursive `Geometry2D` tree with its
builder-style setters, the bounding-box engine, and viewport remapping.

Modelling conventions:
* Rust `f64` values are modelled as exact rationals (`ℚ`).  All concrete inputs used
  in theorems below are small dyadic numbers on which `f64` arithmetic is exact.
* The transcendental functions `f64::cos`, `f64::sin`, `f64::tan` used by the
  `Rotation`, `ShearXDegree` and `ShearYDegree` matrix arms cannot be realised inside
  `ℚ`; they are abstracted as an explicit parameter record `Trig` that is threaded
  through every matrix-producing function.  No theorem below depends on the values of
  these functions; universally quantified statements hold for every `Trig`.
* Rust's `format!("Reverse-{:?}", ...)` debug formatting (used only for the `name`
  strings produced by `Transformation2D::reverse`) is modelled abstractly: the debug
  rendering of a `String` is quoting, and the debug rendering of a transformation
  variant is its variant name.  No claim depends on these name strings.
* `u8` colour channels are modelled as `ℕ`; colours are only carried around, never
  computed with, in the functions treated here.
-/

/-- Abstraction of the `f64` trigonometric functions used by rotation and
shear-by-angle matrices; see the module docstring. -/
structure Trig where
  cos : ℚ → ℚ
  sin : ℚ → ℚ
  tan : ℚ → ℚ

/-- `Color` from lib.rs: four channel bytes. -/
structure Color where
  red : ℕ
  green : ℕ
  blue : ℕ
  alpha : ℕ
deriving DecidableEq

def Color.black : Color := ⟨0, 0, 0, 255⟩

def Color.transparent : Color := ⟨0, 0, 0, 0⟩

/-- `Position2D` from lib.rs. -/
structure Position2D where
  x : ℚ
  y : ℚ
deriving DecidableEq

/-- `Vector2D` from lib.rs. -/
structure Vector2D where
  x : ℚ
  y : ℚ
deriving DecidableEq

/-- `Size2D` from lib.rs. -/
structure Size2D where
  width : ℚ
  height : ℚ
deriving DecidableEq

def Position2D.zero : Position2D := ⟨0, 0⟩

/-- `Position2D::vector_to` from lib.rs. -/
def Position2D.vector_to (p other : Position2D) : Vector2D :=
  ⟨other.x - p.x, other.y - p.y⟩

/-- `impl Sub<Vector2D> for Position2D` from lib.rs. -/
def Position2D.sub_vector (p : Position2D) (v : Vector2D) : Position2D :=
  ⟨p.x - v.x, p.y - v.y⟩

/-- A row-major 3x3 matrix mirroring Rust's `[[f64; 3]; 3]`; field `mIJ` is
`matrix[I][J]`. -/
structure Matrix3x3 where
  m00 : ℚ
  m01 : ℚ
  m02 : ℚ
  m10 : ℚ
  m11 : ℚ
  m12 : ℚ
  m20 : ℚ
  m21 : ℚ
  m22 : ℚ
deriving DecidableEq

/-- A 3-vector mirroring Rust's `[f64; 3]`. -/
structure Vector1x3 where
  v0 : ℚ
  v1 : ℚ
  v2 : ℚ
deriving DecidableEq

/-- `multiply_matrices_3x3` from lib.rs, transcribed index-for-index. -/
def multiply_matrices_3x3 (a b : Matrix3x3) : Matrix3x3 where
  m00 := a.m00 * b.m00 + a.m10 * b.m01 + a.m20 * b.m02
  m01 := a.m01 * b.m00 + a.m11 * b.m01 + a.m21 * b.m02
  m02 := a.m02 * b.m00 + a.m12 * b.m01 + a.m22 * b.m02
  m10 := a.m00 * b.m10 + a.m10 * b.m11 + a.m20 * b.m12
  m11 := a.m01 * b.m10 + a.m11 * b.m11 + a.m21 * b.m12
  m12 := a.m02 * b.m10 + a.m12 * b.m11 + a.m22 * b.m12
  m20 := a.m00 * b.m20 + a.m10 * b.m21 + a.m20 * b.m22
  m21 := a.m01 * b.m20 + a.m11 * b.m21 + a.m21 * b.m22
  m22 := a.m02 * b.m20 + a.m12 * b.m21 + a.m22 * b.m22

/-- `multiply_vector_1x3_and_matrix_3x3` from lib.rs. -/
def multiply_vector_1x3_and_matrix_3x3 (v : Vector1x3) (m : Matrix3x3) : Vector1x3 where
  v0 := v.v0 * m.m00 + v.v1 * m.m01 + v.v2 * m.m02
  v1 := v.v0 * m.m10 + v.v1 * m.m11 + v.v2 * m.m12
  v2 := v.v0 * m.m20 + v.v1 * m.m21 + v.v2 * m.m22

/-- `determinant_of_matrix_3x3` from lib.rs, transcribed index-for-index
(including the `matrix[2][0] * matrix[1][1] * matrix[2][2]` fourth term exactly
as the source writes it). -/
def determinant_of_matrix_3x3 (m : Matrix3x3) : ℚ :=
  m.m00 * m.m11 * m.m22
    + m.m10 * m.m21 * m.m02
    + m.m20 * m.m01 * m.m12
    - m.m20 * m.m11 * m.m22
    - m.m10 * m.m01 * m.m22
    - m.m00 * m.m21 * m.m12

/-- `inverse_of_matrix_3x3` from lib.rs: the classical adjugate divided entrywise by
`determinant_of_matrix_3x3`.  (In `ℚ`, division by a zero determinant yields `0`
entries, where Rust `f64` would yield non-finite entries; no theorem below relies on
the value of a division by zero.) -/
def inverse_of_matrix_3x3 (m : Matrix3x3) : Matrix3x3 :=
  let determinant := determinant_of_matrix_3x3 m
  { m00 := (m.m11 * m.m22 - m.m12 * m.m21) / determinant
    m01 := (m.m02 * m.m21 - m.m01 * m.m22) / determinant
    m02 := (m.m01 * m.m12 - m.m02 * m.m11) / determinant
    m10 := (m.m12 * m.m20 - m.m10 * m.m22) / determinant
    m11 := (m.m00 * m.m22 - m.m02 * m.m20) / determinant
    m12 := (m.m02 * m.m10 - m.m00 * m.m12) / determinant
    m20 := (m.m10 * m.m21 - m.m11 * m.m20) / determinant
    m21 := (m.m01 * m.m20 - m.m00 * m.m21) / determinant
    m22 := (m.m00 * m.m11 - m.m01 * m.m10) / determinant }

/-- Rust's `Iterator::fold_first` (feature `iterator_fold_self`): left fold using the
first element as the initial accumulator, `none` on an empty list. -/
def fold_first {α : Type} (f : α → α → α) : List α → Option α
  | [] => none
  | x :: xs => some (xs.foldl f x)

/-- The 3x3 identity matrix, the value of
`Transformation2D::identity().transformation_matrix()`. -/
def identity_matrix_3x3 : Matrix3x3 := ⟨1, 0, 0, 0, 1, 0, 0, 0, 1⟩

/-- `Transformation2D` from lib.rs. -/
inductive Transformation2D where
  | translation (direction : Vector2D)
  | identity
  | rotation (angle : ℚ)
  | scale (x_factor y_factor : ℚ)
  | isotropic_scale (factor : ℚ)
  | reflection_x
  | reflection_y
  | shear_x (amount : ℚ)
  | shear_y (amount : ℚ)
  | shear_x_degree (degree : ℚ)
  | shear_y_degree (degree : ℚ)
  | composition (name : String) (transformations : List Transformation2D)
  | custom (name : String) (transformation : Matrix3x3)

mutual

/-- `Transformation2D::transformation_matrix` from lib.rs.  The `Composition` arm
reduces the children's matrices with `fold_first multiply_matrices_3x3`, defaulting
to the identity matrix (the source writes the default as
`Transformation2D::identity().transformation_matrix()`, which is
`identity_matrix_3x3`). -/
def Transformation2D.transformation_matrix (tr : Trig) : Transformation2D → Matrix3x3
  | .translation direction => ⟨1, 0, direction.x, 0, 1, direction.y, 0, 0, 1⟩
  | .identity => ⟨1, 0, 0, 0, 1, 0, 0, 0, 1⟩
  | .rotation angle =>
      ⟨tr.cos angle, -(tr.sin angle), 0, tr.sin angle, tr.cos angle, 0, 0, 0, 1⟩
  | .scale x_factor y_factor => ⟨x_factor, 0, 0, 0, y_factor, 0, 0, 0, 1⟩
  | .isotropic_scale factor => ⟨factor, 0, 0, 0, factor, 0, 0, 0, 1⟩
  | .reflection_x => ⟨-1, 0, 0, 0, 1, 0, 0, 0, 1⟩
  | .reflection_y => ⟨1, 0, 0, 0, -1, 0, 0, 0, 1⟩
  | .shear_x amount => ⟨1, amount, 0, 0, 1, 0, 0, 0, 1⟩
  | .shear_y amount => ⟨1, 0, 0, amount, 1, 0, 0, 0, 1⟩
  | .shear_x_degree degree => ⟨1, tr.tan degree, 0, 0, 1, 0, 0, 0, 1⟩
  | .shear_y_degree degree => ⟨1, 0, 0, tr.tan degree, 1, 0, 0, 0, 1⟩
  | .composition _ transformations =>
      (fold_first multiply_matrices_3x3
        (transformation_matrix_list tr transformations)).getD identity_matrix_3x3
  | .custom _ transformation => transformation

/-- The `transformations.iter().map(|t| t.transformation_matrix())` step of the
`Composition` arm, as a list recursion. -/
def transformation_matrix_list (tr : Trig) : List Transformation2D → List Matrix3x3
  | [] => []
  | t :: ts => t.transformation_matrix tr :: transformation_matrix_list tr ts

end

/-- The variant name of a transformation, standing in for Rust's derived `Debug`
rendering in the `format!("Reverse-{:?}", t)` of `Transformation2D::reverse`
(the exact `Debug` output formats `f64` payloads and is outside the `ℚ` model). -/
def Transformation2D.debug_variant_name : Transformation2D → String
  | .translation _ => "Translation"
  | .identity => "Identity"
  | .rotation _ => "Rotation"
  | .scale _ _ => "Scale"
  | .isotropic_scale _ => "IsotropicScale"
  | .reflection_x => "ReflectionX"
  | .reflection_y => "ReflectionY"
  | .shear_x _ => "ShearX"
  | .shear_y _ => "ShearY"
  | .shear_x_degree _ => "ShearXDegree"
  | .shear_y_degree _ => "ShearYDegree"
  | .composition _ _ => "Composition"
  | .custom _ _ => "Custom"

mutual

/-- `Transformation2D::reverse` from lib.rs: the `Composition` arm rebuilds a
`Composition` from the recursively reversed children, in their original list order
(the source applies `.into_iter().map(reverse).collect()` with no order reversal);
every other arm wraps `inverse_of_matrix_3x3` of the op's matrix in a `Custom`. -/
def Transformation2D.reverse (tr : Trig) : Transformation2D → Transformation2D
  | .composition name transformations =>
      .composition ("Reverse-\x22" ++ name ++ "\x22") (reverse_transformation_list tr transformations)
  | t => .custom ("Reverse-" ++ t.debug_variant_name)
      (inverse_of_matrix_3x3 (t.transformation_matrix tr))

/-- The `map(reverse)` over a `Composition`'s children, as a list recursion. -/
def reverse_transformation_list (tr : Trig) : List Transformation2D → List Transformation2D
  | [] => []
  | t :: ts => t.reverse tr :: reverse_transformation_list tr ts

end

/-- `Transformations2D` from lib.rs: the transform pipeline attached to a geometry. -/
structure Transformations2D where
  transformations : List Transformation2D

/-- `Transformations2D::transformation_matrix` from lib.rs. -/
def Transformations2D.transformation_matrix (tr : Trig) (ts : Transformations2D) : Matrix3x3 :=
  (fold_first multiply_matrices_3x3
    (ts.transformations.map (Transformation2D.transformation_matrix tr))).getD
    (Transformation2D.identity.transformation_matrix tr)

/-- `Transformations2D::reverse` from lib.rs: reverse the op list in place, then
reverse each op. -/
def Transformations2D.reverse (tr : Trig) (ts : Transformations2D) : Transformations2D :=
  ⟨ts.transformations.reverse.map (Transformation2D.reverse tr)⟩

/-- `Position2D::transform` from lib.rs: multiply `[x, y, 1]` by the pipeline's
matrix and keep the first two components. -/
def Position2D.transform (tr : Trig) (p : Position2D) (ts : Transformations2D) : Position2D :=
  let transformed := multiply_vector_1x3_and_matrix_3x3 ⟨p.x, p.y, 1⟩
    (ts.transformation_matrix tr)
  ⟨transformed.v0, transformed.v1⟩

theorem transformation_matrix_list_eq_map (tr : Trig) (ts : List Transformation2D) :
    transformation_matrix_list tr ts = ts.map (Transformation2D.transformation_matrix tr) := by
  induction ts with
  | nil => rfl
  | cons t ts ih => simp [transformation_matrix_list, ih]

theorem identity_transformation_matrix (tr : Trig) :
    Transformation2D.identity.transformation_matrix tr = identity_matrix_3x3 := rfl

/-- `LineShape` from lib.rs. -/
inductive LineShape where
  | square
  | round
  | bevel
deriving DecidableEq

/-- `CornerShape` from lib.rs. -/
inductive CornerShape where
  | square
  | round (radius : ℚ) (resolution : ℕ)
  | bevel (amount : ℚ)
deriving DecidableEq

/-- `Geometry2D` from lib.rs.  Fixed-size Rust point arrays (`[Position2D; 2]`,
`[Position2D; 3]`) are split into individually named fields. -/
inductive Geometry2D where
  | point (position : Position2D) (color : Color) (transformations : Transformations2D)
  | line (point0 point1 : Position2D) (line_color : Color) (line_width : ℚ)
      (line_shape : LineShape) (transformations : Transformations2D)
  | polyline (points : List Position2D) (line_color : Color) (line_width : ℚ)
      (line_shape : LineShape) (transformations : Transformations2D)
  | triangle (point0 point1 point2 : Position2D) (fill_color border_color : Color)
      (border_width : ℚ) (transformations : Transformations2D)
  | square (center_position : Position2D) (edge_length : ℚ)
      (fill_color border_color : Color) (border_width : ℚ)
      (corner_shape : CornerShape) (transformations : Transformations2D)
  | rectangle (center_position : Position2D) (size : Size2D)
      (fill_color border_color : Color) (border_width : ℚ)
      (corner_shape : CornerShape) (transformations : Transformations2D)
  | polygon (points : List Position2D) (fill_color border_color : Color)
      (border_width : ℚ) (transformations : Transformations2D)
  | circle (center_position : Position2D) (radius : ℚ)
      (fill_color border_color : Color) (border_width : ℚ)
      (transformations : Transformations2D)
  | ellipse (center_position : Position2D) (size : Size2D)
      (fill_color border_color : Color) (border_width : ℚ)
      (transformations : Transformations2D)
  | group (geometries : List Geometry2D)

mutual

/-- `Geometry2D::line_or_border_color` from lib.rs: sets `line_color` on
`Line`/`Polyline`, `border_color` on the filled shapes, leaves `Point` unchanged,
and recurses into `Group` children. -/
def Geometry2D.line_or_border_color : Geometry2D → Color → Geometry2D
  | p@(.point ..), _ => p
  | .line p0 p1 _ lw ls t, c => .line p0 p1 c lw ls t
  | .polyline ps _ lw ls t, c => .polyline ps c lw ls t
  | .triangle p0 p1 p2 fc _ bw t, c => .triangle p0 p1 p2 fc c bw t
  | .square cp el fc _ bw cs t, c => .square cp el fc c bw cs t
  | .rectangle cp sz fc _ bw cs t, c => .rectangle cp sz fc c bw cs t
  | .polygon ps fc _ bw t, c => .polygon ps fc c bw t
  | .circle cp r fc _ bw t, c => .circle cp r fc c bw t
  | .ellipse cp sz fc _ bw t, c => .ellipse cp sz fc c bw t
  | .group gs, c => .group (line_or_border_color_list gs c)

/-- The `Group` arm's `map(line_or_border_color)` over children. -/
def line_or_border_color_list : List Geometry2D → Color → List Geometry2D
  | [], _ => []
  | g :: gs, c => g.line_or_border_color c :: line_or_border_color_list gs c

end

mutual

/-- `Geometry2D::line_or_border_width` from lib.rs: sets `line_width` on
`Line`/`Polyline`, `border_width` on the filled shapes, leaves `Point` unchanged,
and recurses into `Group` children. -/
def Geometry2D.line_or_border_width : Geometry2D → ℚ → Geometry2D
  | p@(.point ..), _ => p
  | .line p0 p1 lc _ ls t, w => .line p0 p1 lc w ls t
  | .polyline ps lc _ ls t, w => .polyline ps lc w ls t
  | .triangle p0 p1 p2 fc bc _ t, w => .triangle p0 p1 p2 fc bc w t
  | .square cp el fc bc _ cs t, w => .square cp el fc bc w cs t
  | .rectangle cp sz fc bc _ cs t, w => .rectangle cp sz fc bc w cs t
  | .polygon ps fc bc _ t, w => .polygon ps fc bc w t
  | .circle cp r fc bc _ t, w => .circle cp r fc bc w t
  | .ellipse cp sz fc bc _ t, w => .ellipse cp sz fc bc w t
  | .group gs, w => .group (line_or_border_width_list gs w)

/-- The `Group` arm's `map(line_or_border_width)` over children. -/
def line_or_border_width_list : List Geometry2D → ℚ → List Geometry2D
  | [], _ => []
  | g :: gs, w => g.line_or_border_width w :: line_or_border_width_list gs w

end

/-- `Geometry2D::line_shape` from lib.rs: sets `line_shape` on `Line` and
`Polyline`; every other variant (including `Group`) hits the `g => g` catch-all
and is returned unchanged. -/
def Geometry2D.line_shape : Geometry2D → LineShape → Geometry2D
  | .line p0 p1 lc lw _ t, s => .line p0 p1 lc lw s t
  | .polyline ps lc lw _ t, s => .polyline ps lc lw s t
  | g, _ => g

/-- `Geometry2D::corner_shape` from lib.rs: sets `corner_shape` on `Square` and
`Rectangle`; every other variant (including `Group`) hits the `g => g` catch-all
and is returned unchanged. -/
def Geometry2D.corner_shape : Geometry2D → CornerShape → Geometry2D
  | .square cp el fc bc bw _ t, s => .square cp el fc bc bw s t
  | .rectangle cp sz fc bc bw _ t, s => .rectangle cp sz fc bc bw s t
  | g, _ => g

mutual

/-- `Geometry2D::fill_color` from lib.rs: sets `color` on `Point`, `fill_color` on
the filled shapes, leaves `Line` and `Polyline` unchanged, and recurses into
`Group` children. -/
def Geometry2D.fill_color : Geometry2D → Color → Geometry2D
  | .point pos _ t, c => .point pos c t
  | l@(.line ..), _ => l
  | pl@(.polyline ..), _ => pl
  | .triangle p0 p1 p2 _ bc bw t, c => .triangle p0 p1 p2 c bc bw t
  | .square cp el _ bc bw cs t, c => .square cp el c bc bw cs t
  | .rectangle cp sz _ bc bw cs t, c => .rectangle cp sz c bc bw cs t
  | .polygon ps _ bc bw t, c => .polygon ps c bc bw t
  | .circle cp r _ bc bw t, c => .circle cp r c bc bw t
  | .ellipse cp sz _ bc bw t, c => .ellipse cp sz c bc bw t
  | .group gs, c => .group (fill_color_list gs c)

/-- The `Group` arm's `map(fill_color)` over children. -/
def fill_color_list : List Geometry2D → Color → List Geometry2D
  | [], _ => []
  | g :: gs, c => g.fill_color c :: fill_color_list gs c

end

mutual

/-- `Geometry2D::append_transformation` from lib.rs: pushes the transformation onto
the variant's own pipeline; for `Group`, recurses into every child (cloning the
transformation), so each child's own pipeline receives it. -/
def Geometry2D.append_transformation : Geometry2D → Transformation2D → Geometry2D
  | .point pos c t, tf => .point pos c ⟨t.transformations ++ [tf]⟩
  | .line p0 p1 lc lw ls t, tf => .line p0 p1 lc lw ls ⟨t.transformations ++ [tf]⟩
  | .polyline ps lc lw ls t, tf => .polyline ps lc lw ls ⟨t.transformations ++ [tf]⟩
  | .triangle p0 p1 p2 fc bc bw t, tf => .triangle p0 p1 p2 fc bc bw ⟨t.transformations ++ [tf]⟩
  | .square cp el fc bc bw cs t, tf => .square cp el fc bc bw cs ⟨t.transformations ++ [tf]⟩
  | .rectangle cp sz fc bc bw cs t, tf => .rectangle cp sz fc bc bw cs ⟨t.transformations ++ [tf]⟩
  | .polygon ps fc bc bw t, tf => .polygon ps fc bc bw ⟨t.transformations ++ [tf]⟩
  | .circle cp r fc bc bw t, tf => .circle cp r fc bc bw ⟨t.transformations ++ [tf]⟩
  | .ellipse cp sz fc bc bw t, tf => .ellipse cp sz fc bc bw ⟨t.transformations ++ [tf]⟩
  | .group gs, tf => .group (append_transformation_list gs tf)

/-- The `Group` arm's `map(append_transformation)` over children. -/
def append_transformation_list : List Geometry2D → Transformation2D → List Geometry2D
  | [], _ => []
  | g :: gs, tf => g.append_transformation tf :: append_transformation_list gs tf

end

mutual

/-- `Geometry2D::conditional_position_in_transformed_bounding_box` from lib.rs:
for each leaf variant, transform its defining vertices by the variant's own
pipeline and reduce them with the merge function via `fold_first`; for `Group`,
merge the children's results, skipping children that produced `None`. -/
def Geometry2D.conditional_position_in_transformed_bounding_box (tr : Trig)
    (merge_two_positions : Position2D → Position2D → Position2D) :
    Geometry2D → Option Position2D
  | .point position _ transformations => some (position.transform tr transformations)
  | .line p0 p1 _ _ _ transformations =>
      some (merge_two_positions (p0.transform tr transformations)
        (p1.transform tr transformations))
  | .polyline points _ _ _ transformations =>
      fold_first merge_two_positions
        (points.map (fun a => a.transform tr transformations))
  | .triangle p0 p1 p2 _ _ _ transformations =>
      some (merge_two_positions
        (merge_two_positions (p0.transform tr transformations)
          (p1.transform tr transformations))
        (p2.transform tr transformations))
  | .square center_position edge_length _ _ _ _ transformations =>
      fold_first merge_two_positions
        (([center_position.sub_vector ⟨edge_length / 2, edge_length / 2⟩,
           center_position.sub_vector ⟨-edge_length / 2, edge_length / 2⟩,
           center_position.sub_vector ⟨-edge_length / 2, -edge_length / 2⟩,
           center_position.sub_vector ⟨edge_length / 2, -edge_length / 2⟩]).map
          (fun a => a.transform tr transformations))
  | .rectangle center_position size _ _ _ _ transformations =>
      fold_first merge_two_positions
        (([center_position.sub_vector ⟨size.width / 2, size.height / 2⟩,
           center_position.sub_vector ⟨-size.width / 2, size.height / 2⟩,
           center_position.sub_vector ⟨-size.width / 2, -size.height / 2⟩,
           center_position.sub_vector ⟨size.width / 2, -size.height / 2⟩]).map
          (fun a => a.transform tr transformations))
  | .polygon points _ _ _ transformations =>
      fold_first merge_two_positions
        (points.map (fun a => a.transform tr transformations))
  | .circle center_position radius _ _ _ transformations =>
      fold_first merge_two_positions
        (([center_position.sub_vector ⟨radius, radius⟩,
           center_position.sub_vector ⟨-radius, radius⟩,
           center_position.sub_vector ⟨-radius, -radius⟩,
           center_position.sub_vector ⟨radius, -radius⟩]).map
          (fun a => a.transform tr transformations))
  | .ellipse center_position size _ _ _ transformations =>
      fold_first merge_two_positions
        (([center_position.sub_vector ⟨size.width / 2, size.height / 2⟩,
           center_position.sub_vector ⟨-size.width / 2, size.height / 2⟩,
           center_position.sub_vector ⟨-size.width / 2, -size.height / 2⟩,
           center_position.sub_vector ⟨size.width / 2, -size.height / 2⟩]).map
          (fun a => a.transform tr transformations))
  | .group geometries =>
      fold_first merge_two_positions
        (conditional_position_list tr merge_two_positions geometries)

/-- The `Group` arm's `map` / `filter(is_some)` / `map(unwrap)` chain over
children, as a list recursion collecting exactly the `Some` results in order. -/
def conditional_position_list (tr : Trig)
    (merge_two_positions : Position2D → Position2D → Position2D) :
    List Geometry2D → List Position2D
  | [] => []
  | g :: gs =>
      match g.conditional_position_in_transformed_bounding_box tr merge_two_positions with
      | some p => p :: conditional_position_list tr merge_two_positions gs
      | none => conditional_position_list tr merge_two_positions gs

end

/-- The merge closure of `minimum_position_in_transformed_bounding_box`:
componentwise minimum. -/
def min_merge_positions (a b : Position2D) : Position2D :=
  ⟨min a.x b.x, min a.y b.y⟩

/-- The merge closure of `maximum_position_in_transformed_bounding_box`:
componentwise maximum. -/
def max_merge_positions (a b : Position2D) : Position2D :=
  ⟨max a.x b.x, max a.y b.y⟩

/-- The exact value of Rust's `std::f64::MAX`, `2^1024 - 2^971`. -/
def f64_MAX : ℚ := 2 ^ 1024 - 2 ^ 971

/-- The exact value of Rust's `std::f64::MIN`, `-(2^1024 - 2^971)`. -/
def f64_MIN : ℚ := -(2 ^ 1024 - 2 ^ 971)

/-- `Geometry2D::minimum_position_in_transformed_bounding_box` from lib.rs. -/
def Geometry2D.minimum_position_in_transformed_bounding_box (tr : Trig)
    (g : Geometry2D) : Position2D :=
  (g.conditional_position_in_transformed_bounding_box tr min_merge_positions).getD
    ⟨f64_MAX, f64_MAX⟩

/-- `Geometry2D::maximum_position_in_transformed_bounding_box` from lib.rs. -/
def Geometry2D.maximum_position_in_transformed_bounding_box (tr : Trig)
    (g : Geometry2D) : Position2D :=
  (g.conditional_position_in_transformed_bounding_box tr max_merge_positions).getD
    ⟨f64_MIN, f64_MIN⟩

/-- `Geometry2D::center_position_of_bounding_box` from lib.rs. -/
def Geometry2D.center_position_of_bounding_box (tr : Trig) (g : Geometry2D) : Position2D :=
  let max_bb_pos := g.maximum_position_in_transformed_bounding_box tr
  let min_bb_pos := g.minimum_position_in_transformed_bounding_box tr
  ⟨max_bb_pos.x / 2 + min_bb_pos.x / 2, max_bb_pos.y / 2 + min_bb_pos.y / 2⟩

/-- `Geometry2D::size_of_bounding_box` from lib.rs. -/
def Geometry2D.size_of_bounding_box (tr : Trig) (g : Geometry2D) : Size2D :=
  let max_bb_pos := g.maximum_position_in_transformed_bounding_box tr
  let min_bb_pos := g.minimum_position_in_transformed_bounding_box tr
  ⟨max_bb_pos.x - min_bb_pos.x, max_bb_pos.y - min_bb_pos.y⟩

/-- `Viewport2D` from lib.rs. -/
structure Viewport2D where
  center : Position2D
  size : Size2D
  flipped_x_axis : Bool
  flipped_y_axis : Bool

/-- `Geometry2D::transform` from lib.rs: build the op list by successive pushes
(translate source-center to origin; push `ReflectionY` when the viewports' Y-flip
flags differ; push `ReflectionX` when the X-flip flags differ; scale by the
per-axis target/source size ratios; translate origin to target-center), then
append it as one `Composition` named `"ViewportTransformation"`. -/
def Geometry2D.transform (g : Geometry2D) (source_viewport target_viewport : Viewport2D) :
    Geometry2D :=
  let ts0 := [Transformation2D.translation
    (source_viewport.center.vector_to Position2D.zero)]
  let ts1 := if source_viewport.flipped_y_axis ≠ target_viewport.flipped_y_axis
    then ts0 ++ [Transformation2D.reflection_y] else ts0
  let ts2 := if source_viewport.flipped_x_axis ≠ target_viewport.flipped_x_axis
    then ts1 ++ [Transformation2D.reflection_x] else ts1
  let ts3 := ts2 ++ [Transformation2D.scale
    (target_viewport.size.width / source_viewport.size.width)
    (target_viewport.size.height / source_viewport.size.height)]
  let ts4 := ts3 ++ [Transformation2D.translation
    (Position2D.zero.vector_to target_viewport.center)]
  g.append_transformation (Transformation2D.composition "ViewportTransformation" ts4)

/-- A concrete `Trig` instance, used to evaluate transformation trees that contain
no rotation and no shear-by-angle op; its values are never reached there. -/
def constTrig : Trig := ⟨fun _ => 0, fun _ => 0, fun _ => 0⟩

theorem line_or_border_color_list_eq_map (gs : List Geometry2D) (c : Color) :
    line_or_border_color_list gs c = gs.map (Geometry2D.line_or_border_color · c) := by
  induction gs with
  | nil => rfl
  | cons g gs ih => simp [line_or_border_color_list, ih]

theorem line_or_border_width_list_eq_map (gs : List Geometry2D) (w : ℚ) :
    line_or_border_width_list gs w = gs.map (Geometry2D.line_or_border_width · w) := by
  induction gs with
  | nil => rfl
  | cons g gs ih => simp [line_or_border_width_list, ih]

theorem fill_color_list_eq_map (gs : List Geometry2D) (c : Color) :
    fill_color_list gs c = gs.map (Geometry2D.fill_color · c) := by
  induction gs with
  | nil => rfl
  | cons g gs ih => simp [fill_color_list, ih]

theorem append_transformation_list_eq_map (gs : List Geometry2D) (tf : Transformation2D) :
    append_transformation_list gs tf = gs.map (Geometry2D.append_transformation · tf) := by
  induction gs with
  | nil => rfl
  | cons g gs ih => simp [append_transformation_list, ih]

theorem reverse_transformation_list_eq_map (tr : Trig) (ts : List Transformation2D) :
    reverse_transformation_list tr ts = ts.map (Transformation2D.reverse tr) := by
  induction ts with
  | nil => rfl
  | cons t ts ih => simp [reverse_transformation_list, ih]

/-- Following the spec's words (claim C3): the mathematical determinant of a 3x3
matrix, written by the rule of Sarrus.  To be compared with the source's
`determinant_of_matrix_3x3`. -/
def spec_mathematical_determinant (m : Matrix3x3) : ℚ :=
  m.m00 * m.m11 * m.m22
    + m.m01 * m.m12 * m.m20
    + m.m02 * m.m10 * m.m21
    - m.m02 * m.m11 * m.m20
    - m.m00 * m.m12 * m.m21
    - m.m01 * m.m10 * m.m22

/-- Following the spec's words (claim C5): the fixed op order of the synthesized
viewport composition — translation of source-center to origin; `ReflectionY` iff the
flipped-Y flags differ; `ReflectionX` iff the flipped-X flags differ; per-axis
`Scale` by target size over source size; translation of origin to target-center. -/
def spec_viewport_transformation_ops (source_viewport target_viewport : Viewport2D) :
    List Transformation2D :=
  [Transformation2D.translation (source_viewport.center.vector_to Position2D.zero)]
    ++ (if source_viewport.flipped_y_axis ≠ target_viewport.flipped_y_axis
        then [Transformation2D.reflection_y] else [])
    ++ (if source_viewport.flipped_x_axis ≠ target_viewport.flipped_x_axis
        then [Transformation2D.reflection_x] else [])
    ++ [Transformation2D.scale
          (target_viewport.size.width / source_viewport.size.width)
          (target_viewport.size.height / source_viewport.size.height),
        Transformation2D.translation (Position2D.zero.vector_to target_viewport.center)]

/-- Following the spec's words (claim C4): apply the listed transformations' matrices
to a homogeneous vector one at a time, first-listed first. -/
def spec_apply_matrices_in_order (tr : Trig) (ts : List Transformation2D)
    (v : Vector1x3) : Vector1x3 :=
  ts.foldl (fun v t => multiply_vector_1x3_and_matrix_3x3 v (t.transformation_matrix tr)) v

/-- Index of a geometry's variant tag, for stating tag preservation (claim C10). -/
def Geometry2D.variant_index : Geometry2D → ℕ
  | .point .. => 0
  | .line .. => 1
  | .polyline .. => 2
  | .triangle .. => 3
  | .square .. => 4
  | .rectangle .. => 5
  | .polygon .. => 6
  | .circle .. => 7
  | .ellipse .. => 8
  | .group .. => 9

theorem multiply_vector_multiply_matrices (v : Vector1x3) (a b : Matrix3x3) :
    multiply_vector_1x3_and_matrix_3x3 v (multiply_matrices_3x3 a b)
      = multiply_vector_1x3_and_matrix_3x3 (multiply_vector_1x3_and_matrix_3x3 v a) b := by
  simp only [multiply_vector_1x3_and_matrix_3x3, multiply_matrices_3x3, Vector1x3.mk.injEq]
  refine ⟨by ring, by ring, by ring⟩

theorem multiply_vector_foldl (ms : List Matrix3x3) (m : Matrix3x3) (v : Vector1x3) :
    multiply_vector_1x3_and_matrix_3x3 v (ms.foldl multiply_matrices_3x3 m)
      = ms.foldl multiply_vector_1x3_and_matrix_3x3 (multiply_vector_1x3_and_matrix_3x3 v m) := by
  induction ms generalizing m v with
  | nil => rfl
  | cons hd tl ih =>
      simp only [List.foldl_cons]
      rw [ih, multiply_vector_multiply_matrices]

/-- Claim C6: the transformation matrix of a `Composition` with an empty
transformation list, and of a `Transformations2D` pipeline with an empty
transformation list, is exactly the 3x3 identity matrix
`[[1,0,0],[0,1,0],[0,0,1]]`. -/
theorem c6_empty_composition_and_pipeline_identity :
    ∀ (tr : Trig) (name : String),
      (Transformation2D.composition name []).transformation_matrix tr
          = Matrix3x3.mk 1 0 0 0 1 0 0 0 1
        ∧ (Transformations2D.mk []).transformation_matrix tr
          = Matrix3x3.mk 1 0 0 0 1 0 0 0 1 := by
  intro tr name
  exact ⟨rfl, rfl⟩

/-- Claim C9: `fill_color` applied to a `Line` returns the input unchanged, field
for field — the inapplicable style operation is a silent no-op. -/
theorem c9_fill_color_on_line_is_noop :
    ∀ (p0 p1 : Position2D) (lc : Color) (lw : ℚ) (ls : LineShape)
      (t : Transformations2D) (c : Color),
      (Geometry2D.line p0 p1 lc lw ls t).fill_color c
        = Geometry2D.line p0 p1 lc lw ls t := by
  intro p0 p1 lc lw ls t c
  rfl

/-- Claim C8: a `Group` of a circle at (0,0) with radius 5 and a circle at (20,0)
with radius 5 (any style fields, empty pipelines) has minimum transformed bounding
box position exactly (-5,-5) and maximum exactly (25,5). -/
theorem c8_two_circle_group_bounding_box :
    ∀ (tr : Trig) (fc1 bc1 fc2 bc2 : Color) (bw1 bw2 : ℚ),
      (Geometry2D.group
          [Geometry2D.circle ⟨0, 0⟩ 5 fc1 bc1 bw1 ⟨[]⟩,
           Geometry2D.circle ⟨20, 0⟩ 5 fc2 bc2 bw2 ⟨[]⟩]).minimum_position_in_transformed_bounding_box tr
          = ⟨-5, -5⟩
        ∧ (Geometry2D.group
          [Geometry2D.circle ⟨0, 0⟩ 5 fc1 bc1 bw1 ⟨[]⟩,
           Geometry2D.circle ⟨20, 0⟩ 5 fc2 bc2 bw2 ⟨[]⟩]).maximum_position_in_transformed_bounding_box tr
          = ⟨25, 5⟩ := by
  intro tr fc1 bc1 fc2 bc2 bw1 bw2
  constructor
  · norm_num [Geometry2D.minimum_position_in_transformed_bounding_box,
      Geometry2D.conditional_position_in_transformed_bounding_box, conditional_position_list,
      fold_first, Position2D.transform, Transformations2D.transformation_matrix,
      multiply_vector_1x3_and_matrix_3x3, Position2D.sub_vector, min_merge_positions,
      Transformation2D.transformation_matrix, min_def, Position2D.mk.injEq]
  · norm_num [Geometry2D.maximum_position_in_transformed_bounding_box,
      Geometry2D.conditional_position_in_transformed_bounding_box, conditional_position_list,
      fold_first, Position2D.transform, Transformations2D.transformation_matrix,
      multiply_vector_1x3_and_matrix_3x3, Position2D.sub_vector, max_merge_positions,
      Transformation2D.transformation_matrix, max_def, Position2D.mk.injEq]

/-- Claim C1 counterexample: `line_shape` applied to a `Group` holding one `Line`
does not recurse into the child — the result keeps the child's original
`LineShape.square`, instead of being the `Group` of the child with the operation
applied (which would carry `LineShape.round`). -/
theorem c1_line_shape_group_no_recursion :
    Geometry2D.line_shape
        (Geometry2D.group
          [Geometry2D.line ⟨0, 0⟩ ⟨1, 0⟩ Color.black 1 LineShape.square ⟨[]⟩])
        LineShape.round
      ≠ Geometry2D.group
          [Geometry2D.line_shape
            (Geometry2D.line ⟨0, 0⟩ ⟨1, 0⟩ Color.black 1 LineShape.square ⟨[]⟩)
            LineShape.round] := by
  simp [Geometry2D.line_shape]

/-- Claim C1, amended: among the five setter-style operations, `fill_color`,
`line_or_border_color` and `line_or_border_width` recurse into all `Group` children
and apply the same operation; `line_shape` and `corner_shape` hit the `g => g`
catch-all on `Group` and return it unchanged, so they never reach `Line`/`Polyline`
(respectively `Square`/`Rectangle`) children inside a group. -/
theorem c1_group_setter_recursion_amended :
    (∀ (gs : List Geometry2D) (c : Color),
        (Geometry2D.group gs).fill_color c
          = Geometry2D.group (gs.map (Geometry2D.fill_color · c)))
      ∧ (∀ (gs : List Geometry2D) (c : Color),
          (Geometry2D.group gs).line_or_border_color c
            = Geometry2D.group (gs.map (Geometry2D.line_or_border_color · c)))
      ∧ (∀ (gs : List Geometry2D) (w : ℚ),
          (Geometry2D.group gs).line_or_border_width w
            = Geometry2D.group (gs.map (Geometry2D.line_or_border_width · w)))
      ∧ (∀ (gs : List Geometry2D) (s : LineShape),
          (Geometry2D.group gs).line_shape s = Geometry2D.group gs)
      ∧ (∀ (gs : List Geometry2D) (s : CornerShape),
          (Geometry2D.group gs).corner_shape s = Geometry2D.group gs) := by
  refine ⟨?_, ?_, ?_, ?_, ?_⟩
  · intro gs c
    simp [Geometry2D.fill_color, fill_color_list_eq_map]
  · intro gs c
    simp [Geometry2D.line_or_border_color, line_or_border_color_list_eq_map]
  · intro gs w
    simp [Geometry2D.line_or_border_width, line_or_border_width_list_eq_map]
  · intro gs s
    rfl
  · intro gs s
    rfl

/-- Claim C2 (code-bug evidence): reversing the composition
`[Translation (1,0), Scale 2 1]` yields a composition whose children are the
reversed children in their ORIGINAL order (not the reversed order the spec
requires); the two reversed children differ, so the order matters, and composing
the original with its reversal moves the origin to (1/2, 0) instead of undoing. -/
theorem c2_reverse_composition_keeps_child_order :
    (Transformation2D.composition "c"
        [Transformation2D.translation ⟨1, 0⟩, Transformation2D.scale 2 1]).reverse constTrig
        = Transformation2D.composition "Reverse-\x22c\x22"
            [(Transformation2D.translation ⟨1, 0⟩ : Transformation2D).reverse constTrig,
             (Transformation2D.scale 2 1 : Transformation2D).reverse constTrig]
      ∧ (Transformation2D.translation ⟨1, 0⟩ : Transformation2D).reverse constTrig
        ≠ (Transformation2D.scale 2 1 : Transformation2D).reverse constTrig
      ∧ (Position2D.mk 0 0).transform constTrig
          (Transformations2D.mk
            [Transformation2D.composition "c"
              [Transformation2D.translation ⟨1, 0⟩, Transformation2D.scale 2 1],
             (Transformation2D.composition "c"
               [Transformation2D.translation ⟨1, 0⟩,
                Transformation2D.scale 2 1]).reverse constTrig])
        ≠ Position2D.mk 0 0 := by
  refine ⟨rfl, ?_, ?_⟩
  · norm_num [Transformation2D.reverse, Transformation2D.debug_variant_name,
      Transformation2D.transformation_matrix, inverse_of_matrix_3x3,
      determinant_of_matrix_3x3, Transformation2D.custom.injEq, Matrix3x3.mk.injEq]
  · norm_num [Position2D.transform, Transformations2D.transformation_matrix, fold_first,
      Transformation2D.transformation_matrix, Transformation2D.reverse,
      reverse_transformation_list, transformation_matrix_list, inverse_of_matrix_3x3,
      determinant_of_matrix_3x3, multiply_matrices_3x3, multiply_vector_1x3_and_matrix_3x3,
      identity_matrix_3x3, Position2D.mk.injEq]

/-- The source's determinant differs from the mathematical determinant by exactly
`m20 * m11 * (m02 - m22)`: its fourth (Sarrus) term reads `matrix[2][2]` where the
rule of Sarrus needs `matrix[0][2]`. -/
theorem determinant_discrepancy (m : Matrix3x3) :
    determinant_of_matrix_3x3 m
      = spec_mathematical_determinant m + m.m20 * m.m11 * (m.m02 - m.m22) := by
  simp only [determinant_of_matrix_3x3, spec_mathematical_determinant]
  ring

/-- Claim C3 (code-bug evidence): at `M = [[3,0,0],[0,1,0],[1,0,1]]` the source's
`determinant_of_matrix_3x3` returns 2 while the mathematical determinant is 3, so
`inverse_of_matrix_3x3` divides the (correct) adjugate by the wrong scalar and the
product of the returned matrix with `M` — in either order — is not the identity
matrix, in exact arithmetic. -/
theorem c3_determinant_and_inverse_bug :
    determinant_of_matrix_3x3 ⟨3, 0, 0, 0, 1, 0, 1, 0, 1⟩ = 2
      ∧ spec_mathematical_determinant ⟨3, 0, 0, 0, 1, 0, 1, 0, 1⟩ = 3
      ∧ multiply_matrices_3x3 (inverse_of_matrix_3x3 ⟨3, 0, 0, 0, 1, 0, 1, 0, 1⟩)
          ⟨3, 0, 0, 0, 1, 0, 1, 0, 1⟩ ≠ identity_matrix_3x3
      ∧ multiply_matrices_3x3 ⟨3, 0, 0, 0, 1, 0, 1, 0, 1⟩
          (inverse_of_matrix_3x3 ⟨3, 0, 0, 0, 1, 0, 1, 0, 1⟩) ≠ identity_matrix_3x3 := by
  refine ⟨?_, ?_, ?_, ?_⟩ <;>
    norm_num [determinant_of_matrix_3x3, spec_mathematical_determinant,
      multiply_matrices_3x3, inverse_of_matrix_3x3, identity_matrix_3x3,
      Matrix3x3.mk.injEq]

/-- Claim C4: for a non-empty pipeline `[t1, ..., tn]`, transforming a point through
the composed pipeline matrix (via `Position2D::transform`) equals applying `t1`'s
matrix to the homogeneous vector first, then `t2`'s, and so on with `tn` last, then
reading off the first two components — the matrices are folded in list order with
each new matrix pre-multiplied onto the accumulated product. -/
theorem c4_pipeline_applies_first_listed_first :
    ∀ (tr : Trig) (ts : List Transformation2D) (p : Position2D),
      ts ≠ [] →
      p.transform tr (Transformations2D.mk ts)
        = Position2D.mk
            (spec_apply_matrices_in_order tr ts ⟨p.x, p.y, 1⟩).v0
            (spec_apply_matrices_in_order tr ts ⟨p.x, p.y, 1⟩).v1 := by
  intro tr ts p hne
  match ts with
  | [] => exact absurd rfl hne
  | t :: rest =>
      simp only [Position2D.transform, Transformations2D.transformation_matrix,
        List.map_cons, fold_first, Option.getD_some, spec_apply_matrices_in_order,
        List.foldl_cons]
      rw [multiply_vector_foldl, List.foldl_map]

/-- Witness for C4 at the singleton pipeline `[Translation (1,0)]` and the origin. -/
theorem c4_pipeline_applies_first_listed_first_witness :
    (Position2D.mk 0 0).transform constTrig
        (Transformations2D.mk [Transformation2D.translation ⟨1, 0⟩])
      = Position2D.mk
          (spec_apply_matrices_in_order constTrig [Transformation2D.translation ⟨1, 0⟩]
            ⟨(Position2D.mk 0 0).x, (Position2D.mk 0 0).y, 1⟩).v0
          (spec_apply_matrices_in_order constTrig [Transformation2D.translation ⟨1, 0⟩]
            ⟨(Position2D.mk 0 0).x, (Position2D.mk 0 0).y, 1⟩).v1 :=
  c4_pipeline_applies_first_listed_first constTrig [Transformation2D.translation ⟨1, 0⟩]
    ⟨0, 0⟩ (by simp)

/-- Claim C7: whenever a geometry's conditional bounding-box traversal produces no
extent (for the min merge and for the max merge), the minimum query returns exactly
`(f64::MAX, f64::MAX)` and the maximum query exactly `(f64::MIN, f64::MIN)` — an
inverted sentinel box. -/
theorem c7_no_extent_yields_sentinel :
    ∀ (tr : Trig) (g : Geometry2D),
      g.conditional_position_in_transformed_bounding_box tr min_merge_positions = none →
      g.conditional_position_in_transformed_bounding_box tr max_merge_positions = none →
      g.minimum_position_in_transformed_bounding_box tr = ⟨f64_MAX, f64_MAX⟩
        ∧ g.maximum_position_in_transformed_bounding_box tr = ⟨f64_MIN, f64_MIN⟩ := by
  intro tr g hmin hmax
  constructor
  · simp [Geometry2D.minimum_position_in_transformed_bounding_box, hmin]
  · simp [Geometry2D.maximum_position_in_transformed_bounding_box, hmax]

/-- Witness for C7 at the empty `Group`. -/
theorem c7_no_extent_yields_sentinel_witness :
    (Geometry2D.group []).minimum_position_in_transformed_bounding_box constTrig
        = ⟨f64_MAX, f64_MAX⟩
      ∧ (Geometry2D.group []).maximum_position_in_transformed_bounding_box constTrig
        = ⟨f64_MIN, f64_MIN⟩ :=
  c7_no_extent_yields_sentinel constTrig (Geometry2D.group []) rfl rfl

/-- Claim C10: every setter/builder operation preserves the variant tag of its
input, and on a `Group` preserves the number and order of children — the recursing
operations map themselves over the children, the catch-all ones return the group
unchanged. -/
theorem c10_setters_preserve_variant_and_children :
    (∀ (g : Geometry2D) (c : Color), (g.fill_color c).variant_index = g.variant_index)
      ∧ (∀ (g : Geometry2D) (c : Color),
          (g.line_or_border_color c).variant_index = g.variant_index)
      ∧ (∀ (g : Geometry2D) (w : ℚ),
          (g.line_or_border_width w).variant_index = g.variant_index)
      ∧ (∀ (g : Geometry2D) (s : LineShape),
          (g.line_shape s).variant_index = g.variant_index)
      ∧ (∀ (g : Geometry2D) (s : CornerShape),
          (g.corner_shape s).variant_index = g.variant_index)
      ∧ (∀ (g : Geometry2D) (t : Transformation2D),
          (g.append_transformation t).variant_index = g.variant_index)
      ∧ (∀ (gs : List Geometry2D) (c : Color),
          (Geometry2D.group gs).fill_color c
            = Geometry2D.group (gs.map (Geometry2D.fill_color · c)))
      ∧ (∀ (gs : List Geometry2D) (c : Color),
          (Geometry2D.group gs).line_or_border_color c
            = Geometry2D.group (gs.map (Geometry2D.line_or_border_color · c)))
      ∧ (∀ (gs : List Geometry2D) (w : ℚ),
          (Geometry2D.group gs).line_or_border_width w
            = Geometry2D.group (gs.map (Geometry2D.line_or_border_width · w)))
      ∧ (∀ (gs : List Geometry2D) (s : LineShape),
          (Geometry2D.group gs).line_shape s = Geometry2D.group gs)
      ∧ (∀ (gs : List Geometry2D) (s : CornerShape),
          (Geometry2D.group gs).corner_shape s = Geometry2D.group gs)
      ∧ (∀ (gs : List Geometry2D) (t : Transformation2D),
          (Geometry2D.group gs).append_transformation t
            = Geometry2D.group (gs.map (Geometry2D.append_transformation · t))) := by
  refine ⟨?_, ?_, ?_, ?_, ?_, ?_, ?_, ?_, ?_, ?_, ?_, ?_⟩
  · intro g c
    cases g <;> rfl
  · intro g c
    cases g <;> rfl
  · intro g w
    cases g <;> rfl
  · intro g s
    cases g <;> rfl
  · intro g s
    cases g <;> rfl
  · intro g t
    cases g <;> rfl
  · intro gs c
    simp [Geometry2D.fill_color, fill_color_list_eq_map]
  · intro gs c
    simp [Geometry2D.line_or_border_color, line_or_border_color_list_eq_map]
  · intro gs w
    simp [Geometry2D.line_or_border_width, line_or_border_width_list_eq_map]
  · intro gs s
    rfl
  · intro gs s
    rfl
  · intro gs t
    simp [Geometry2D.append_transformation, append_transformation_list_eq_map]

/-- Claim C5: for every geometry and every pair of viewports, `Geometry2D::transform`
appends exactly one `Composition` named `"ViewportTransformation"` whose ops are, in
this fixed order: translation of source-center to origin; `ReflectionY` iff the
flipped-Y flags differ; `ReflectionX` iff the flipped-X flags differ; per-axis
`Scale` by target size over source size; translation of origin to target-center. -/
theorem c5_transform_appends_viewport_composition :
    ∀ (g : Geometry2D) (source_viewport target_viewport : Viewport2D),
      g.transform source_viewport target_viewport
        = g.append_transformation
            (Transformation2D.composition "ViewportTransformation"
              (spec_viewport_transformation_ops source_viewport target_viewport)) := by
  intro g sv tv
  simp only [Geometry2D.transform, spec_viewport_transformation_ops]
  split_ifs <;> simp



